import Mathlib

/-!
Shallow embedding of the TechLearn auth gateway (auth server in
src/unnamed/part_000, User schema in src/unnamed/part_002, resource-server
middleware authenticateToken in src/unnamed/part_003 and part_004).

Modelling conventions:
- Time is a single abstract clock `now : Nat`; JWT expiries are absolute
  instants on this clock (the source mixes seconds for JWT `exp` and
  milliseconds for the stored `expiresAt`; only the JWT `exp` is ever
  consulted by the code, so one unit suffices).
- A signed JWT is modelled as its decoded claims paired with the secret it
  was signed with; verification compares the signing secret to the expected
  one, then checks expiry, mirroring jsonwebtoken (signature is checked
  before expiry, and TokenExpiredError is a distinct error kind).
- bcrypt is idealised as a deterministic injective encoding: the only
  property the handlers rely on is that compare(p, hash(q)) succeeds exactly
  when p = q, and that comparing against a string that is not a real hash
  (the fixed dummy hash) fails.
- Mongoose `findOne`/`findById` return the first matching document;
  `deleteOne` removes the first matching document.
-/

/-- Environment configuration: the two signing secrets
(`process.env.ACCESS_TOKEN_SECRET`, `process.env.REFRESH_TOKEN_SECRET`). -/
structure Env where
  accessTokenSecret : Nat
  refreshTokenSecret : Nat
deriving DecidableEq

/-- A persisted User document. The schema in src/unnamed/part_002 declares
exactly the paths `name`, `password`, `createdAt` (plus the assigned `_id`).
It declares no admin-flag path, so on documents constructed by the register
handler the `isAdmin` property is absent; `isAdmin : Option Bool` models the
value of that JavaScript property (`none` = the property is not present on
the stored document). -/
structure UserDoc where
  id : Nat
  name : String
  password : String
  isAdmin : Option Bool
  createdAt : Nat
deriving DecidableEq

/-- JavaScript `x || false` for a possibly-absent boolean property:
`undefined || false` is `false`, `false || false` is `false`,
`true || false` is `true`. -/
def orFalse (o : Option Bool) : Bool := o.getD false

/-- Claims of an access JWT as produced by `generateAccessToken`:
`{ userId, name, isAdmin }` plus the expiry instant added by `expiresIn`. -/
structure AccessClaims where
  userId : Nat
  name : String
  isAdmin : Bool
  exp : Nat
deriving DecidableEq

/-- A signed access token: decoded claims plus the secret it was signed with. -/
structure AccessToken where
  claims : AccessClaims
  sig : Nat
deriving DecidableEq

/-- Claims of a refresh JWT as signed by the login handler: `{ userId }`
plus the expiry instant added by `expiresIn: '7d'`. -/
structure RefreshClaims where
  userId : Nat
  exp : Nat
deriving DecidableEq

/-- A signed refresh token: decoded claims plus the secret it was signed with. -/
structure RefreshJwt where
  claims : RefreshClaims
  sig : Nat
deriving DecidableEq

/-- A row of the RefreshToken collection as saved by the login handler:
`{ token, userId, expiresAt }`. -/
structure RefreshTokenRow where
  token : RefreshJwt
  userId : Nat
  expiresAt : Nat
deriving DecidableEq

/-- The durable state: the users collection and the refresh-tokens collection. -/
structure DB where
  users : List UserDoc
  refreshTokens : List RefreshTokenRow
deriving DecidableEq

/-- Verification error kinds of jsonwebtoken that the handlers distinguish:
`JsonWebTokenError` (bad signature, modelled as `SignatureInvalid`) and
`TokenExpiredError` (modelled as `TokenExpired`). -/
inductive JwtError where
  | SignatureInvalid
  | TokenExpired
deriving DecidableEq

/-- Access-token verification, mirroring `jwt.verify(token, secret, cb)`:
the signature is checked first (wrong secret gives JsonWebTokenError), then
expiry (`clockTimestamp >= exp` gives TokenExpiredError). -/
def verifyAccess (t : AccessToken) (secret now : Nat) : Except JwtError AccessClaims :=
  if t.sig ≠ secret then .error .SignatureInvalid
  else if t.claims.exp ≤ now then .error .TokenExpired
  else .ok t.claims

/-- Refresh-token verification, same structure as `verifyAccess`. -/
def verifyRefresh (t : RefreshJwt) (secret now : Nat) : Except JwtError RefreshClaims :=
  if t.sig ≠ secret then .error .SignatureInvalid
  else if t.claims.exp ≤ now then .error .TokenExpired
  else .ok t.claims

/-- Idealised `bcrypt.hash(p, 10)`: a deterministic injective encoding with
the bcrypt format prefix. -/
def bcryptHash (p : String) : String := "$2b$10$" ++ p

/-- Idealised `bcrypt.compare(p, h)`: succeeds exactly when `h` is the hash
of `p`. -/
def bcryptCompare (p h : String) : Bool := h == bcryptHash p

/-- The fixed precomputed dummy hash used by the login handler on the
user-not-found path (a literal in src/unnamed/part_000). No password hashes
to it under `bcryptHash` (every real hash has length at least 8 while this
string differs from every `bcryptHash p` because it extends the prefix with
`dummyhash...`, and in particular `bcryptCompare "dummy" dummyHash = false`). -/
def dummyHash : String := "$2b$10$dummyhashdummyhashdummyha"

/-- Access-token lifetime: `expiresIn: '15m'`. -/
def accessTokenLifetime : Nat := 15 * 60

/-- Refresh-token lifetime: `expiresIn: '7d'`. -/
def refreshTokenLifetime : Nat := 7 * 24 * 60 * 60

/-- `generateAccessToken(user)` from src/unnamed/part_000: signs
`{ userId: user._id, name: user.name, isAdmin: user.isAdmin || false }`
with the access secret and 15-minute expiry. -/
def generateAccessToken (u : UserDoc) (env : Env) (now : Nat) : AccessToken :=
  ⟨⟨u.id, u.name, orFalse u.isAdmin, now + accessTokenLifetime⟩, env.accessTokenSecret⟩

/-- The refresh token signed by the login handler:
`jwt.sign({ userId: user._id }, REFRESH_TOKEN_SECRET, { expiresIn: '7d' })`. -/
def issueRefreshToken (u : UserDoc) (env : Env) (now : Nat) : RefreshJwt :=
  ⟨⟨u.id, now + refreshTokenLifetime⟩, env.refreshTokenSecret⟩

/-- Test of the username pattern `/^[a-zA-Z0-9_]{3,20}$/` from the register
handler. Under JavaScript regex semantics (no `m` flag, `^` and `$` anchor
at the absolute start and end of the string) this holds exactly when the
whole string is 3 to 20 characters, each an ASCII letter, digit or
underscore. -/
def usernameRegexTest (s : String) : Bool :=
  decide (3 ≤ s.length) && decide (s.length ≤ 20) &&
    s.data.all (fun c => c.isAlphanum || c == '_')

/-- JavaScript regex `.` matches any character except a line terminator
(newline, carriage return, line separator, paragraph separator). -/
def isLineTerminator (c : Char) : Bool :=
  c == '\n' || c == '\r' || c == ' ' || c == ' '

/-- Test of the password pattern `/^(?=.*\d)(?=.*[a-z])(?=.*[A-Z]).{8,}$/`
from the register handler. Under JavaScript semantics `.{8,}$` forces the
whole string to consist of at least 8 non-line-terminator characters, and
then the three lookaheads hold exactly when the string contains a digit, a
lowercase ASCII letter and an uppercase ASCII letter. -/
def passwordRegexTest (s : String) : Bool :=
  decide (8 ≤ s.length) && s.data.all (fun c => !isLineTerminator c) &&
    s.data.any (fun c => c.isDigit) && s.data.any (fun c => c.isLower) &&
    s.data.any (fun c => c.isUpper)

/-- Username pattern as the specification words it: 3 to 20 characters drawn
from letters, digits and underscore. Stated separately from
`usernameRegexTest` so claims worded against the spec can be compared with
the code regex. -/
def specUsernamePattern (s : String) : Bool :=
  decide (3 ≤ s.length) && decide (s.length ≤ 20) &&
    s.data.all (fun c => c.isAlphanum || c == '_')

/-- Password rule as the specification words it: at least 8 characters with
at least one uppercase letter, one lowercase letter and one digit. -/
def specPasswordPattern (s : String) : Bool :=
  decide (8 ≤ s.length) && s.data.any (fun c => c.isUpper) &&
    s.data.any (fun c => c.isLower) && s.data.any (fun c => c.isDigit)

/-- Document construction `new User({name, password, isAdmin})` under the
schema of src/unnamed/part_002: the schema declares only `name`, `password`
and `createdAt` (default `Date.now`), and mongoose strict mode (the default)
silently discards the `isAdmin` path, so the stored document carries no
admin flag. -/
def mkUserDoc (id : Nat) (name hashedPassword : String) (_isAdminBody : Option Bool)
    (now : Nat) : UserDoc :=
  { id := id, name := name, password := hashedPassword, isAdmin := none, createdAt := now }

/-- Responses of the register handler (500 storage failures are outside the
model, which has no failing storage). -/
inductive RegisterResponse where
  | badRequest (error : String)
  | duplicate (error : String)
  | created (id : Nat) (name : String)
deriving DecidableEq

/-- HTTP status of a register response. -/
def RegisterResponse.statusCode : RegisterResponse → Nat
  | .badRequest _ => 400
  | .duplicate _ => 409
  | .created _ _ => 201

/-- The register handler `app.post('/register')` from src/unnamed/part_000:
validate the username regex, validate the password regex, reject a duplicate
name with 409, otherwise hash the password and persist a new User built by
`new User({name, password: hash, isAdmin: req.body.isAdmin || false})`
(whose schema drops the admin flag), answering 201 with the public view.
`freshId` is the `_id` assigned to the new document and `now` the clock. -/
def postRegister (db : DB) (name password : String) (isAdminBody : Option Bool)
    (freshId now : Nat) : DB × RegisterResponse :=
  if !usernameRegexTest name then
    (db, .badRequest "Username must be 3-20 characters (letters, numbers, underscores)")
  else if !passwordRegexTest password then
    (db, .badRequest "Password must contain: 8+ chars, 1 uppercase, 1 lowercase, 1 number")
  else if (db.users.find? (fun u => u.name == name)).isSome then
    (db, .duplicate "Username already exists")
  else
    let newUser := mkUserDoc freshId name (bcryptHash password) isAdminBody now
    ({ db with users := db.users ++ [newUser] }, .created freshId name)

/-- Responses of the login handler. -/
inductive LoginResponse where
  | unauthorized (error : String)
  | ok (accessToken : AccessToken) (refreshToken : RefreshJwt)
       (userId : Nat) (name : String) (isAdmin : Bool)
deriving DecidableEq

/-- Result of a login call: the state after the call, the response, and the
trace of bcrypt comparisons performed (each recorded as the pair of the
supplied plaintext and the hash it was compared against). The trace makes
the timing-equalisation structure of the handler statable: both failure
paths perform exactly one real bcrypt comparison. -/
structure LoginResult where
  db : DB
  response : LoginResponse
  bcryptCalls : List (String × String)
deriving DecidableEq

/-- The login handler `app.post('/login')` from src/unnamed/part_000:
look up the user by name; if absent, perform the dummy comparison
`bcrypt.compare('dummy', dummyHash)` and answer 401 Invalid credentials;
if present but the password comparison fails, answer the same 401; on
success issue both tokens, persist the refresh-token row and answer 200. -/
def postLogin (db : DB) (name password : String) (env : Env) (now : Nat) : LoginResult :=
  match db.users.find? (fun u => u.name == name) with
  | none => ⟨db, .unauthorized "Invalid credentials", [("dummy", dummyHash)]⟩
  | some user =>
    if bcryptCompare password user.password then
      let accessToken := generateAccessToken user env now
      let refreshToken := issueRefreshToken user env now
      let row : RefreshTokenRow := ⟨refreshToken, user.id, now + refreshTokenLifetime⟩
      ⟨{ db with refreshTokens := db.refreshTokens ++ [row] },
       .ok accessToken refreshToken user.id user.name (orFalse user.isAdmin),
       [(password, user.password)]⟩
    else ⟨db, .unauthorized "Invalid credentials", [(password, user.password)]⟩

/-- Responses of the token-refresh handler: `res.sendStatus(code)` or
200 with a body containing exactly the new access token. -/
inductive TokenResponse where
  | status (code : Nat)
  | ok (accessToken : AccessToken)
deriving DecidableEq

/-- `RefreshToken.findOne({token}).isSome`: does a row for this token string
exist in the store. -/
def refreshTokenExists (t : RefreshJwt) (db : DB) : Bool :=
  db.refreshTokens.any (fun r => r.token == t)

/-- `RefreshToken.deleteOne({token})`: remove the first row whose token
matches; a no-op when none matches. -/
def deleteOneByToken (t : RefreshJwt) : List RefreshTokenRow → List RefreshTokenRow
  | [] => []
  | r :: rs => if r.token == t then rs else r :: deleteOneByToken t rs

/-- The token-refresh handler `app.post('/token')` from src/unnamed/part_000:
missing body token gives 401; a token with no stored row gives 403; a token
whose verification fails (any error kind, expiry included) has its stored
row deleted and gives 403; a verified token whose owning user is gone gives
404; otherwise a fresh access token is issued and nothing in the store
changes. -/
def postToken (db : DB) (body : Option RefreshJwt) (env : Env) (now : Nat) :
    DB × TokenResponse :=
  match body with
  | none => (db, .status 401)
  | some refreshToken =>
    if !refreshTokenExists refreshToken db then (db, .status 403)
    else
      match verifyRefresh refreshToken env.refreshTokenSecret now with
      | .error _ =>
        ({ db with refreshTokens := deleteOneByToken refreshToken db.refreshTokens },
         .status 403)
      | .ok decoded =>
        match db.users.find? (fun u => u.id == decoded.userId) with
        | none => (db, .status 404)
        | some user => (db, .ok (generateAccessToken user env now))

/-- The logout handler `app.delete('/logout')` from src/unnamed/part_000:
delete the row matching the supplied token string (no row matches when the
body carries no token) and answer 204 unconditionally. -/
def deleteLogout (db : DB) (body : Option RefreshJwt) : DB × Nat :=
  match body with
  | none => (db, 204)
  | some t => ({ db with refreshTokens := deleteOneByToken t db.refreshTokens }, 204)

/-- The request-context user attached by the middleware:
`req.user = { userId, name, isAdmin }`. -/
structure RequestUser where
  userId : Nat
  name : String
  isAdmin : Bool
deriving DecidableEq

/-- Outcome of the authentication middleware: reject with a status and error
body, or let the request through with the decoded user attached. -/
inductive AuthResult where
  | reject (status : Nat) (error : String)
  | allow (user : RequestUser)
deriving DecidableEq

/-- The middleware `authenticateToken` from src/unnamed/part_003 and
part_004: no bearer token gives 401; a TokenExpiredError gives 401; any
other verification error gives 403; a verified token lets the request through
with `{ userId, name, isAdmin: decoded.isAdmin || false }` attached. It is
a pure function of the presented token, the secret and the clock: it takes
no store argument at all (the contract that it never touches the database
holds by construction). -/
def authenticateToken (bearer : Option AccessToken) (secret now : Nat) : AuthResult :=
  match bearer with
  | none => .reject 401 "Missing authentication token"
  | some token =>
    match verifyAccess token secret now with
    | .error .TokenExpired => .reject 401 "Token expired"
    | .error .SignatureInvalid => .reject 403 "Invalid token"
    | .ok decoded => .allow ⟨decoded.userId, decoded.name, decoded.isAdmin || false⟩

/-- Modelled from the spec: the RefreshToken mongoose schema file is not
under src (only the Course, Note, Progress and User schemas are), and §3 of
the spec declares the token string unique in the store. This invariant is
what the uniqueness constraint of that missing schema guarantees for every
reachable store. -/
def refreshTokensNodup (db : DB) : Prop :=
  (db.refreshTokens.map (fun r => r.token)).Nodup

instance (db : DB) : Decidable (refreshTokensNodup db) :=
  inferInstanceAs
    (Decidable (List.Nodup (db.refreshTokens.map (fun r : RefreshTokenRow => r.token))))

/-- Sample environment for witnesses: distinct access and refresh secrets. -/
def sampleEnv : Env := ⟨1, 2⟩

/-- Sample stored user for witnesses. -/
def sampleUser : UserDoc := ⟨7, "alice_01", bcryptHash "Passw0rd1", none, 0⟩

/-- Sample refresh token for witnesses: owned by `sampleUser`, signed with
the refresh secret of `sampleEnv`, expiring at instant 604800. -/
def sampleRefreshJwt : RefreshJwt := ⟨⟨7, 604800⟩, 2⟩

/-- Sample store for witnesses: one user, one refresh-token row. -/
def sampleDb : DB := ⟨[sampleUser], [⟨sampleRefreshJwt, 7, 604800⟩]⟩

/-- Helper: after `deleteOne` on a store whose token strings are pairwise
distinct, no row with the deleted token string remains. -/
theorem any_deleteOneByToken_eq_false (t : RefreshJwt) :
    ∀ l : List RefreshTokenRow, (l.map (fun r => r.token)).Nodup →
      (deleteOneByToken t l).any (fun r => r.token == t) = false := by
  intro l
  induction l with
  | nil => intro h; rfl
  | cons r rs ih =>
    intro h
    rw [List.map_cons, List.nodup_cons] at h
    by_cases hrt : r.token = t
    · rw [deleteOneByToken, if_pos (beq_iff_eq.mpr hrt)]
      rw [List.any_eq_false]
      intro x hx hxt
      rw [beq_iff_eq] at hxt
      have hmem : x.token ∈ rs.map (fun r => r.token) :=
        List.mem_map_of_mem (fun r => r.token) hx
      rw [hxt, ← hrt] at hmem
      exact h.1 hmem
    · rw [deleteOneByToken, if_neg (by simp [hrt]), List.any_cons, ih h.2]
      simp [hrt]

/-- C1: For the refresh operation (POST /token): a request body carrying no
token gives 401; when the stored token verifies against the refresh secret
but the owning user no longer exists the response is 404; when the owning
user exists the response is 200 carrying exactly a new access token, the
store is unchanged (the refresh token is not rotated), and the same refresh
token still succeeds on a subsequent refresh call. -/
theorem postToken_refresh_spec (db : DB) (t : RefreshJwt) (env : Env) (now : Nat) :
    postToken db none env now = (db, .status 401) ∧
    (refreshTokenExists t db = true → t.sig = env.refreshTokenSecret →
      now < t.claims.exp →
      ((db.users.find? (fun u => u.id == t.claims.userId) = none →
          postToken db (some t) env now = (db, .status 404)) ∧
       (∀ u, db.users.find? (fun v => v.id == t.claims.userId) = some u →
          postToken db (some t) env now = (db, .ok (generateAccessToken u env now)) ∧
          (postToken (postToken db (some t) env now).1 (some t) env now).2 =
            .ok (generateAccessToken u env now)))) := by
  refine ⟨rfl, ?_⟩
  intro hex hsig hexp
  have hver : verifyRefresh t env.refreshTokenSecret now = .ok t.claims := by
    unfold verifyRefresh
    rw [if_neg (by simp [hsig]), if_neg (Nat.not_le.mpr hexp)]
  constructor
  · intro hnone
    simp [postToken, hex, hver, hnone]
  · intro u hu
    have e : postToken db (some t) env now = (db, .ok (generateAccessToken u env now)) := by
      simp [postToken, hex, hver, hu]
    exact ⟨e, by rw [e]; simp [postToken, hex, hver, hu]⟩

/-- Witness for C1 at a concrete store: the missing-token call answers 401
and the stored, valid sample token yields 200 with a fresh access token. -/
theorem postToken_refresh_spec_witness :
    postToken sampleDb none sampleEnv 5 = (sampleDb, .status 401) ∧
    postToken sampleDb (some sampleRefreshJwt) sampleEnv 5 =
      (sampleDb, .ok (generateAccessToken sampleUser sampleEnv 5)) := by
  refine ⟨(postToken_refresh_spec sampleDb sampleRefreshJwt sampleEnv 5).1, ?_⟩
  exact (((postToken_refresh_spec sampleDb sampleRefreshJwt sampleEnv 5).2 (by decide)
    (by decide) (by decide)).2 sampleUser (by decide)).1

/-- C2: a refresh request whose token is stored but whose signature does not
verify against the refresh secret deletes the stored row (so a later
existence check is false, given the uniqueness invariant of the store) and
answers 403. -/
theorem postToken_badSignature_deletes (db : DB) (t : RefreshJwt) (env : Env) (now : Nat)
    (hex : refreshTokenExists t db = true) (hsig : t.sig ≠ env.refreshTokenSecret) :
    postToken db (some t) env now =
      ({ db with refreshTokens := deleteOneByToken t db.refreshTokens }, .status 403) ∧
    (refreshTokensNodup db →
      refreshTokenExists t (postToken db (some t) env now).1 = false) := by
  have hver : verifyRefresh t env.refreshTokenSecret now = .error .SignatureInvalid := by
    unfold verifyRefresh
    rw [if_pos hsig]
  have e : postToken db (some t) env now =
      ({ db with refreshTokens := deleteOneByToken t db.refreshTokens }, .status 403) := by
    simp [postToken, hex, hver]
  refine ⟨e, fun hnd => ?_⟩
  rw [e]
  exact any_deleteOneByToken_eq_false t db.refreshTokens hnd

/-- Witness for C2: a stored token signed with secret 99 instead of the
refresh secret 2 is removed from the store and the response is 403. -/
theorem postToken_badSignature_deletes_witness :
    postToken (⟨[], [⟨⟨⟨7, 604800⟩, 99⟩, 7, 604800⟩]⟩ : DB) (some ⟨⟨7, 604800⟩, 99⟩)
      sampleEnv 5 = (⟨[], []⟩, .status 403) ∧
    refreshTokenExists ⟨⟨7, 604800⟩, 99⟩
      (postToken (⟨[], [⟨⟨⟨7, 604800⟩, 99⟩, 7, 604800⟩]⟩ : DB) (some ⟨⟨7, 604800⟩, 99⟩)
        sampleEnv 5).1 = false := by
  have h := postToken_badSignature_deletes (⟨[], [⟨⟨⟨7, 604800⟩, 99⟩, 7, 604800⟩]⟩ : DB)
    ⟨⟨7, 604800⟩, 99⟩ sampleEnv 5 (by decide) (by decide)
  exact ⟨h.1, h.2 (by decide)⟩

/-- C3 counterexample: a stored refresh token signed with the correct refresh
secret whose expiry (instant 100) has passed at instant 200 is rejected with
403, but the stored row does NOT remain in place: the handler deletes it,
because jwt.verify reports expiry through the same error callback as a bad
signature and the handler deletes on every verification error. -/
theorem postToken_expired_row_deleted_cex :
    refreshTokenExists (⟨⟨7, 100⟩, 2⟩ : RefreshJwt)
      (⟨[], [⟨⟨⟨7, 100⟩, 2⟩, 7, 100⟩]⟩ : DB) = true ∧
    (⟨⟨7, 100⟩, 2⟩ : RefreshJwt).sig = (⟨1, 2⟩ : Env).refreshTokenSecret ∧
    (⟨⟨7, 100⟩, 2⟩ : RefreshJwt).claims.exp ≤ 200 ∧
    (postToken (⟨[], [⟨⟨⟨7, 100⟩, 2⟩, 7, 100⟩]⟩ : DB) (some ⟨⟨7, 100⟩, 2⟩)
      ⟨1, 2⟩ 200).2 = .status 403 ∧
    refreshTokenExists (⟨⟨7, 100⟩, 2⟩ : RefreshJwt)
      (postToken (⟨[], [⟨⟨⟨7, 100⟩, 2⟩, 7, 100⟩]⟩ : DB) (some ⟨⟨7, 100⟩, 2⟩)
        ⟨1, 2⟩ 200).1 = false := by
  decide

/-- C3 amended: a refresh request whose token is stored, correctly signed,
but expired answers 403 AND deletes the stored row — expiry is handled by
the same defensive cleanup as an invalid signature, not left in place. -/
theorem postToken_expired_deletes (db : DB) (t : RefreshJwt) (env : Env) (now : Nat)
    (hex : refreshTokenExists t db = true) (hsig : t.sig = env.refreshTokenSecret)
    (hexp : t.claims.exp ≤ now) :
    postToken db (some t) env now =
      ({ db with refreshTokens := deleteOneByToken t db.refreshTokens }, .status 403) ∧
    (refreshTokensNodup db →
      refreshTokenExists t (postToken db (some t) env now).1 = false) := by
  have hver : verifyRefresh t env.refreshTokenSecret now = .error .TokenExpired := by
    unfold verifyRefresh
    rw [if_neg (by simp [hsig]), if_pos hexp]
  have e : postToken db (some t) env now =
      ({ db with refreshTokens := deleteOneByToken t db.refreshTokens }, .status 403) := by
    simp [postToken, hex, hver]
  refine ⟨e, fun hnd => ?_⟩
  rw [e]
  exact any_deleteOneByToken_eq_false t db.refreshTokens hnd

/-- Witness for the amended C3: the concrete expired token of the
counterexample is deleted and the response is 403. -/
theorem postToken_expired_deletes_witness :
    postToken (⟨[], [⟨⟨⟨7, 100⟩, 2⟩, 7, 100⟩]⟩ : DB) (some ⟨⟨7, 100⟩, 2⟩) ⟨1, 2⟩ 200 =
      (⟨[], []⟩, .status 403) ∧
    refreshTokenExists ⟨⟨7, 100⟩, 2⟩
      (postToken (⟨[], [⟨⟨⟨7, 100⟩, 2⟩, 7, 100⟩]⟩ : DB) (some ⟨⟨7, 100⟩, 2⟩)
        ⟨1, 2⟩ 200).1 = false := by
  have h := postToken_expired_deletes (⟨[], [⟨⟨⟨7, 100⟩, 2⟩, 7, 100⟩]⟩ : DB)
    ⟨⟨7, 100⟩, 2⟩ ⟨1, 2⟩ 200 (by decide) (by decide) (by decide)
  exact ⟨h.1, h.2 (by decide)⟩

/-- C5: the login failure responses for a nonexistent username and for an
existing username with a wrong password are identical — both 401 with the
same error payload — and the nonexistent-username path performs exactly one
real bcrypt comparison, against the fixed precomputed dummy hash, before
responding, matching the single comparison of the wrong-password path.
Neither path changes the store. -/
theorem login_failure_paths_uniform (db : DB) (n1 n2 p1 p2 : String) (env : Env)
    (now : Nat) (u : UserDoc)
    (h1 : db.users.find? (fun v => v.name == n1) = none)
    (h2 : db.users.find? (fun v => v.name == n2) = some u)
    (h3 : bcryptCompare p2 u.password = false) :
    (postLogin db n1 p1 env now).response = .unauthorized "Invalid credentials" ∧
    (postLogin db n2 p2 env now).response = .unauthorized "Invalid credentials" ∧
    (postLogin db n1 p1 env now).response = (postLogin db n2 p2 env now).response ∧
    (postLogin db n1 p1 env now).bcryptCalls = [("dummy", dummyHash)] ∧
    (postLogin db n2 p2 env now).bcryptCalls = [(p2, u.password)] ∧
    (postLogin db n1 p1 env now).bcryptCalls.length =
      (postLogin db n2 p2 env now).bcryptCalls.length ∧
    (postLogin db n1 p1 env now).db = db ∧ (postLogin db n2 p2 env now).db = db := by
  simp [postLogin, h1, h2, h3]

/-- Witness for C5: on the sample store the unknown name bob and the known
name alice_01 with a wrong password draw the same 401 and one bcrypt
comparison each. -/
theorem login_failure_paths_uniform_witness :
    (postLogin sampleDb "bob" "Whatever1" sampleEnv 5).response =
      .unauthorized "Invalid credentials" ∧
    (postLogin sampleDb "alice_01" "WrongPass1" sampleEnv 5).response =
      .unauthorized "Invalid credentials" ∧
    (postLogin sampleDb "bob" "Whatever1" sampleEnv 5).bcryptCalls =
      [("dummy", dummyHash)] ∧
    (postLogin sampleDb "bob" "Whatever1" sampleEnv 5).bcryptCalls.length =
      (postLogin sampleDb "alice_01" "WrongPass1" sampleEnv 5).bcryptCalls.length := by
  have h := login_failure_paths_uniform sampleDb "bob" "alice_01" "Whatever1" "WrongPass1"
    sampleEnv 5 sampleUser (by decide) (by decide) (by decide)
  exact ⟨h.1, h.2.1, h.2.2.2.1, h.2.2.2.2.2.1⟩

/-- C9: the middleware is a pure function of the bearer token, the secret
and the clock (it takes no store argument): a missing token gives 401, an
expired token gives 401, a token signed with the wrong secret gives 403, and
a valid token is let through with the decoded userId, name and admin
flag attached. -/
theorem authenticateToken_state_machine (t : AccessToken) (secret now : Nat) :
    authenticateToken none secret now = .reject 401 "Missing authentication token" ∧
    (t.sig ≠ secret → authenticateToken (some t) secret now = .reject 403 "Invalid token") ∧
    (t.sig = secret → t.claims.exp ≤ now →
      authenticateToken (some t) secret now = .reject 401 "Token expired") ∧
    (t.sig = secret → now < t.claims.exp →
      authenticateToken (some t) secret now =
        .allow ⟨t.claims.userId, t.claims.name, t.claims.isAdmin⟩) := by
  refine ⟨rfl, ?_, ?_, ?_⟩
  · intro hsig
    simp [authenticateToken, verifyAccess, hsig]
  · intro hsig hexp
    simp [authenticateToken, verifyAccess, hsig, hexp]
  · intro hsig hexp
    simp [authenticateToken, verifyAccess, hsig, Nat.not_le.mpr hexp]

/-- Witness for C9: concrete tokens exercise the reject and allow branches
of the middleware. -/
theorem authenticateToken_state_machine_witness :
    authenticateToken none 1 5 = .reject 401 "Missing authentication token" ∧
    authenticateToken (some ⟨⟨7, "alice_01", false, 900⟩, 99⟩) 1 5 =
      .reject 403 "Invalid token" ∧
    authenticateToken (some ⟨⟨7, "alice_01", false, 900⟩, 1⟩) 1 1000 =
      .reject 401 "Token expired" ∧
    authenticateToken (some ⟨⟨7, "alice_01", false, 900⟩, 1⟩) 1 5 =
      .allow ⟨7, "alice_01", false⟩ := by
  refine ⟨(authenticateToken_state_machine ⟨⟨7, "alice_01", false, 900⟩, 1⟩ 1 5).1, ?_, ?_, ?_⟩
  · exact (authenticateToken_state_machine ⟨⟨7, "alice_01", false, 900⟩, 99⟩ 1 5).2.1
      (by decide)
  · exact (authenticateToken_state_machine ⟨⟨7, "alice_01", false, 900⟩, 1⟩ 1 1000).2.2.1
      rfl (by decide)
  · exact (authenticateToken_state_machine ⟨⟨7, "alice_01", false, 900⟩, 1⟩ 1 5).2.2.2
      rfl (by decide)

/-- C10: logout answers 204 for every store, whether or not a row matched;
under the store uniqueness invariant the token no longer exists afterwards,
and a subsequent refresh call with the same token answers 403. -/
theorem logout_idempotent_revocation (db : DB) (t : RefreshJwt) (env : Env) (now : Nat) :
    (deleteLogout db (some t)).2 = 204 ∧
    (refreshTokensNodup db →
      refreshTokenExists t (deleteLogout db (some t)).1 = false ∧
      (postToken (deleteLogout db (some t)).1 (some t) env now).2 = .status 403) := by
  refine ⟨rfl, fun hnd => ?_⟩
  have hne : refreshTokenExists t (deleteLogout db (some t)).1 = false :=
    any_deleteOneByToken_eq_false t db.refreshTokens hnd
  refine ⟨hne, ?_⟩
  simp [postToken, hne]

/-- Witness for C10: logging out the sample token yields 204, removes it
from the sample store, and a refresh attempt with it then answers 403.
Logout on the emptied store still answers 204. -/
theorem logout_idempotent_revocation_witness :
    (deleteLogout sampleDb (some sampleRefreshJwt)).2 = 204 ∧
    refreshTokenExists sampleRefreshJwt (deleteLogout sampleDb (some sampleRefreshJwt)).1 =
      false ∧
    (postToken (deleteLogout sampleDb (some sampleRefreshJwt)).1 (some sampleRefreshJwt)
      sampleEnv 5).2 = .status 403 ∧
    (deleteLogout (deleteLogout sampleDb (some sampleRefreshJwt)).1
      (some sampleRefreshJwt)).2 = 204 := by
  have h := logout_idempotent_revocation sampleDb sampleRefreshJwt sampleEnv 5
  have h2 := logout_idempotent_revocation (deleteLogout sampleDb (some sampleRefreshJwt)).1
    sampleRefreshJwt sampleEnv 5
  exact ⟨h.1, (h.2 (by decide)).1, (h.2 (by decide)).2, h2.1⟩

/-- C4: the User schema defines no admin-flag path, so the isAdmin value
accepted in the register body is never stored: the record persisted for a
registered user carries no admin flag (isAdmin is absent), and whatever was
supplied at registration, the access token issued by login for that user
carries the claim isAdmin = false, as does the access token issued by a
subsequent refresh with the refresh token login returned. -/
theorem register_admin_flag_never_stored (db : DB) (n p : String) (adm : Option Bool)
    (env : Env) (fid now : Nat)
    (hn : usernameRegexTest n = true) (hp : passwordRegexTest p = true)
    (hfresh : db.users.find? (fun u => u.name == n) = none)
    (hid : ∀ u ∈ db.users, u.id ≠ fid) :
    ((postRegister db n p adm fid now).1.users.find? (fun u => u.name == n) =
      some ⟨fid, n, bcryptHash p, none, now⟩) ∧
    ((postLogin (postRegister db n p adm fid now).1 n p env now).response =
      .ok (generateAccessToken ⟨fid, n, bcryptHash p, none, now⟩ env now)
        (issueRefreshToken ⟨fid, n, bcryptHash p, none, now⟩ env now) fid n false) ∧
    (generateAccessToken ⟨fid, n, bcryptHash p, none, now⟩ env now).claims.isAdmin = false ∧
    ((postToken (postLogin (postRegister db n p adm fid now).1 n p env now).db
        (some (issueRefreshToken ⟨fid, n, bcryptHash p, none, now⟩ env now)) env now).2 =
      .ok (generateAccessToken ⟨fid, n, bcryptHash p, none, now⟩ env now)) := by
  have e : (postRegister db n p adm fid now).1 =
      ⟨db.users ++ [⟨fid, n, bcryptHash p, none, now⟩], db.refreshTokens⟩ := by
    simp [postRegister, hn, hp, hfresh, mkUserDoc]
  have hfind : (db.users ++ [(⟨fid, n, bcryptHash p, none, now⟩ : UserDoc)]).find?
      (fun u => u.name == n) = some ⟨fid, n, bcryptHash p, none, now⟩ := by
    rw [List.find?_append, hfresh]
    simp [List.find?]
  have c1 : (postRegister db n p adm fid now).1.users.find? (fun u => u.name == n) =
      some ⟨fid, n, bcryptHash p, none, now⟩ := by
    rw [e]; exact hfind
  have elogin : postLogin
      ⟨db.users ++ [⟨fid, n, bcryptHash p, none, now⟩], db.refreshTokens⟩ n p env now =
      ⟨⟨db.users ++ [⟨fid, n, bcryptHash p, none, now⟩],
        db.refreshTokens ++
          [⟨issueRefreshToken ⟨fid, n, bcryptHash p, none, now⟩ env now, fid,
            now + refreshTokenLifetime⟩]⟩,
       .ok (generateAccessToken ⟨fid, n, bcryptHash p, none, now⟩ env now)
         (issueRefreshToken ⟨fid, n, bcryptHash p, none, now⟩ env now) fid n false,
       [(p, bcryptHash p)]⟩ := by
    simp [postLogin, hfind, bcryptCompare, orFalse]
  have hfindid : (db.users ++ [(⟨fid, n, bcryptHash p, none, now⟩ : UserDoc)]).find?
      (fun u => u.id == fid) = some ⟨fid, n, bcryptHash p, none, now⟩ := by
    rw [List.find?_append]
    have hnone : db.users.find? (fun u => u.id == fid) = none := by
      rw [List.find?_eq_none]
      intro x hx hxf
      exact hid x hx (beq_iff_eq.mp hxf)
    rw [hnone]
    simp [List.find?]
  have hver : verifyRefresh (issueRefreshToken ⟨fid, n, bcryptHash p, none, now⟩ env now)
      env.refreshTokenSecret now = .ok ⟨fid, now + refreshTokenLifetime⟩ := by
    have h2 : ¬ (now + refreshTokenLifetime ≤ now) := by
      unfold refreshTokenLifetime; omega
    simp [verifyRefresh, issueRefreshToken, h2]
  have hexist : refreshTokenExists
      (issueRefreshToken ⟨fid, n, bcryptHash p, none, now⟩ env now)
      ⟨db.users ++ [⟨fid, n, bcryptHash p, none, now⟩],
        db.refreshTokens ++
          [⟨issueRefreshToken ⟨fid, n, bcryptHash p, none, now⟩ env now, fid,
            now + refreshTokenLifetime⟩]⟩ = true := by
    simp [refreshTokenExists]
  have etok : (postToken
      ⟨db.users ++ [⟨fid, n, bcryptHash p, none, now⟩],
        db.refreshTokens ++
          [⟨issueRefreshToken ⟨fid, n, bcryptHash p, none, now⟩ env now, fid,
            now + refreshTokenLifetime⟩]⟩
      (some (issueRefreshToken ⟨fid, n, bcryptHash p, none, now⟩ env now)) env now).2 =
      .ok (generateAccessToken ⟨fid, n, bcryptHash p, none, now⟩ env now) := by
    simp [postToken, hexist, hver, hfindid]
  refine ⟨c1, ?_, rfl, ?_⟩
  · rw [e, elogin]
  · rw [e, elogin]
    exact etok

/-- Witness for C4: registering alice_01 with isAdmin set to true in the
body stores a record whose admin flag is absent, and the login that follows
issues an access token whose isAdmin claim is false. -/
theorem register_admin_flag_never_stored_witness :
    ((postRegister ⟨[], []⟩ "alice_01" "Passw0rd1" (some true) 7 0).1.users.find?
      (fun u => u.name == "alice_01") =
      some ⟨7, "alice_01", bcryptHash "Passw0rd1", none, 0⟩) ∧
    (generateAccessToken ⟨7, "alice_01", bcryptHash "Passw0rd1", none, 0⟩ sampleEnv
      0).claims.isAdmin = false ∧
    ((postLogin (postRegister ⟨[], []⟩ "alice_01" "Passw0rd1" (some true) 7 0).1
        "alice_01" "Passw0rd1" sampleEnv 0).response =
      .ok (generateAccessToken ⟨7, "alice_01", bcryptHash "Passw0rd1", none, 0⟩ sampleEnv 0)
        (issueRefreshToken ⟨7, "alice_01", bcryptHash "Passw0rd1", none, 0⟩ sampleEnv 0)
        7 "alice_01" false) := by
  have h := register_admin_flag_never_stored ⟨[], []⟩ "alice_01" "Passw0rd1" (some true)
    sampleEnv 7 0 (by decide) (by decide) (by decide) (by decide)
  exact ⟨h.1, h.2.2.1, h.2.1⟩

/-- C6: a register request whose username fails the 3-20
letters/digits/underscore pattern or whose password fails the rule of at
least 8 characters with an uppercase letter, a lowercase letter and a digit
is rejected with a 400 validation error and creates no User record. -/
theorem register_validation_rejects (db : DB) (n p : String) (adm : Option Bool)
    (fid now : Nat)
    (h : specUsernamePattern n = false ∨ specPasswordPattern p = false) :
    (postRegister db n p adm fid now).1 = db ∧
    (postRegister db n p adm fid now).2.statusCode = 400 := by
  rcases h with hn | hp
  · have hcode : usernameRegexTest n = false := hn
    constructor <;> simp [postRegister, hcode, RegisterResponse.statusCode]
  · have hcode : passwordRegexTest p = false := by
      cases hct : passwordRegexTest p with
      | false => rfl
      | true =>
        exfalso
        unfold passwordRegexTest at hct
        simp only [Bool.and_eq_true] at hct
        obtain ⟨⟨⟨⟨hA, hB⟩, hC⟩, hD⟩, hE⟩ := hct
        unfold specPasswordPattern at hp
        rw [hA, hC, hD, hE] at hp
        simp at hp
    cases hn2 : usernameRegexTest n with
    | false => constructor <;> simp [postRegister, hn2, RegisterResponse.statusCode]
    | true => constructor <;> simp [postRegister, hn2, hcode, RegisterResponse.statusCode]

/-- Witness for C6: the spec example password short1 and the too-short
username ab are both rejected with 400 and leave the empty store empty. -/
theorem register_validation_rejects_witness :
    (postRegister ⟨[], []⟩ "alice_01" "short1" none 7 0).1 = ⟨[], []⟩ ∧
    (postRegister ⟨[], []⟩ "alice_01" "short1" none 7 0).2.statusCode = 400 ∧
    (postRegister ⟨[], []⟩ "ab" "Passw0rd1" none 7 0).1 = ⟨[], []⟩ ∧
    (postRegister ⟨[], []⟩ "ab" "Passw0rd1" none 7 0).2.statusCode = 400 := by
  have h1 := register_validation_rejects ⟨[], []⟩ "alice_01" "short1" none 7 0
    (Or.inr (by decide))
  have h2 := register_validation_rejects ⟨[], []⟩ "ab" "Passw0rd1" none 7 0
    (Or.inl (by decide))
  exact ⟨h1.1, h1.2, h2.1, h2.2⟩

/-- C7: registering a valid, fresh username succeeds with 201 and appends
exactly one User record; afterwards every register call with the same
username (and a password passing validation, which is checked first) fails
with 409 Username already exists and leaves the store unchanged. -/
theorem register_duplicate_username (db : DB) (n p : String) (adm : Option Bool)
    (fid now : Nat)
    (hn : usernameRegexTest n = true) (hp : passwordRegexTest p = true)
    (hfresh : db.users.find? (fun u => u.name == n) = none) :
    postRegister db n p adm fid now =
      (⟨db.users ++ [⟨fid, n, bcryptHash p, none, now⟩], db.refreshTokens⟩,
       .created fid n) ∧
    (postRegister db n p adm fid now).2.statusCode = 201 ∧
    (∀ db2 p2 adm2 fid2 now2, passwordRegexTest p2 = true →
      (∃ u ∈ db2.users, u.name = n) →
      postRegister db2 n p2 adm2 fid2 now2 = (db2, .duplicate "Username already exists") ∧
      (postRegister db2 n p2 adm2 fid2 now2).2.statusCode = 409) := by
  have e : postRegister db n p adm fid now =
      (⟨db.users ++ [⟨fid, n, bcryptHash p, none, now⟩], db.refreshTokens⟩,
       .created fid n) := by
    simp [postRegister, hn, hp, hfresh, mkUserDoc]
  refine ⟨e, by rw [e]; rfl, ?_⟩
  intro db2 p2 adm2 fid2 now2 hp2 hex
  obtain ⟨u, hmem, hname⟩ := hex
  have hdup : (db2.users.find? (fun v => v.name == n)).isSome = true := by
    rw [List.find?_isSome]
    exact ⟨u, hmem, beq_iff_eq.mpr hname⟩
  have e2 : postRegister db2 n p2 adm2 fid2 now2 =
      (db2, .duplicate "Username already exists") := by
    simp [postRegister, hn, hp2, hdup]
  exact ⟨e2, by rw [e2]; rfl⟩

/-- Witness for C7: registering alice_01 on the empty store succeeds once
with 201; repeating the name with a different valid password and admin flag
answers 409 and adds nothing. -/
theorem register_duplicate_username_witness :
    postRegister ⟨[], []⟩ "alice_01" "Passw0rd1" none 7 0 =
      (⟨[⟨7, "alice_01", bcryptHash "Passw0rd1", none, 0⟩], []⟩, .created 7 "alice_01") ∧
    postRegister ⟨[⟨7, "alice_01", bcryptHash "Passw0rd1", none, 0⟩], []⟩ "alice_01"
      "Another1x" (some true) 8 1 =
      (⟨[⟨7, "alice_01", bcryptHash "Passw0rd1", none, 0⟩], []⟩,
       .duplicate "Username already exists") := by
  have h := register_duplicate_username ⟨[], []⟩ "alice_01" "Passw0rd1" none 7 0
    (by decide) (by decide) (by decide)
  refine ⟨h.1, ?_⟩
  exact (h.2.2 ⟨[⟨7, "alice_01", bcryptHash "Passw0rd1", none, 0⟩], []⟩ "Another1x"
    (some true) 8 1 (by decide)
    ⟨⟨7, "alice_01", bcryptHash "Passw0rd1", none, 0⟩, by decide, rfl⟩).1

/-- C8: a successful login returns an access token whose decoded claims are
the user record's id, name and admin flag (the flag read as isAdmin or
false), and the access-secret verifier decodes exactly those claims while
the token is fresh. -/
theorem login_access_token_claims (db : DB) (n p : String) (env : Env) (now : Nat)
    (u : UserDoc)
    (hu : db.users.find? (fun v => v.name == n) = some u)
    (hp : bcryptCompare p u.password = true) :
    (postLogin db n p env now).response =
      .ok (generateAccessToken u env now) (issueRefreshToken u env now)
        u.id u.name (orFalse u.isAdmin) ∧
    (generateAccessToken u env now).claims.userId = u.id ∧
    (generateAccessToken u env now).claims.name = u.name ∧
    (generateAccessToken u env now).claims.isAdmin = orFalse u.isAdmin ∧
    verifyAccess (generateAccessToken u env now) env.accessTokenSecret now =
      .ok ⟨u.id, u.name, orFalse u.isAdmin, now + accessTokenLifetime⟩ := by
  refine ⟨?_, rfl, rfl, rfl, ?_⟩
  · simp [postLogin, hu, hp]
  · have h2 : ¬ (now + accessTokenLifetime ≤ now) := by
      unfold accessTokenLifetime; omega
    simp [verifyAccess, generateAccessToken, h2]

/-- Witness for C8: the sample user logs in with the right password and the
returned token decodes to id 7, name alice_01, admin flag false. -/
theorem login_access_token_claims_witness :
    (postLogin sampleDb "alice_01" "Passw0rd1" sampleEnv 5).response =
      .ok (generateAccessToken sampleUser sampleEnv 5)
        (issueRefreshToken sampleUser sampleEnv 5) 7 "alice_01" false ∧
    (generateAccessToken sampleUser sampleEnv 5).claims.userId = 7 ∧
    (generateAccessToken sampleUser sampleEnv 5).claims.name = "alice_01" ∧
    (generateAccessToken sampleUser sampleEnv 5).claims.isAdmin = false := by
  have h := login_access_token_claims sampleDb "alice_01" "Passw0rd1" sampleEnv 5
    sampleUser (by decide) (by decide)
  exact ⟨h.1, h.2.1, h.2.2.1, h.2.2.2.1⟩
